import Mathlib

/-!
Verification of the Schwab_EZ_Orders order-construction engine.

Shallow embedding of `schwab_order_builder.py` (OrderBuilder, price
formatter, payload builder), `schwab_strategies.py` (CoveredCall), and
`schwab_ez_orders.py` (EZOrders order-value safety gate).

Modelling conventions:
* Python exceptions are modelled with `Except Err`; a raised exception
  discards the in-progress mutation of `self` (no claim examined here
  depends on the state left behind by a failed call).
* Monetary inputs are exact decimals: `Decimal(str(price))` turns a
  Python float literal into the exact decimal number it was written as,
  which we model by the `Dec` type (mantissa × 10^(-scale)).
* The interactive console is modelled by a `console : Bool` flag
  (attached or not) plus a `response : Bool` oracle for the answer that
  `input()` would read inside `_confirm_order`.
* Console printing of warnings is a pure side channel and is not part of
  the state; the `warnings` list itself is.
-/

/-- Error taxonomy: one constructor per distinct `ValidationError` /
`ValueError` message raised by the source (spec §7 names). -/
inductive Err where
  | invalidPrice                                    -- "Price must be positive"
  | invalidQuantity                                 -- "Quantity must be positive"
  | noActiveLeg                                     -- "Must specify buy/sell action before quantity"
  | noLegs                                          -- "Order must have at least one leg"
  | badLegQuantity (symbol : String) (quantity : Int)  -- "Invalid quantity for ..."
  | limitNeedsPrice                                 -- "Limit orders require a price"
  | stopNeedsStopPrice                              -- "Stop orders require a stop price"
  | stopLimitNeedsBoth                              -- "Stop-limit orders require both ..."
  | netNeedsPrice                                   -- "Net debit/credit orders require a price"
  | trailingNeedsOffset                             -- "Trailing stop orders require an offset"
  | conditionalNeedsChildren                        -- "Conditional orders require child orders"
  | orderCancelled                                  -- "Order cancelled by user"
  | insufficientCoverage (contracts stockQty : Int) -- "Cannot sell N calls - only have M shares"
  | orderValueExceeded                              -- "Order value ... exceeds safety limit"
  deriving DecidableEq, Repr

/-- An exact decimal number `mant * 10^(-scale)`, the value denoted by a
Python `Decimal` built from a decimal literal. -/
structure Dec where
  mant : Int
  scale : Nat
  deriving DecidableEq, Repr

/-- Rational value of a decimal. -/
def Dec.val (d : Dec) : ℚ := (d.mant : ℚ) / (10 : ℚ) ^ d.scale

/-- Python `Decimal.quantize(10^-t, rounding=ROUND_DOWN)`: rescale to `t`
fractional digits, truncating toward zero (`Int.tdiv`). -/
def quantizeDown (d : Dec) (t : Nat) : Dec :=
  if d.scale ≤ t then ⟨d.mant * 10 ^ (t - d.scale), t⟩
  else ⟨Int.tdiv d.mant (10 ^ (d.scale - t)), t⟩

/-- Source `OrderBuilder._format_price`: reject non-positive price, then
truncate to 4 fractional digits when `abs(price) < 1.0`, else to 2. -/
def formatPrice (p : Dec) : Except Err Dec :=
  if p.mant ≤ 0 then .error .invalidPrice
  else if p.mant.natAbs < 10 ^ p.scale then .ok (quantizeDown p 4)
  else .ok (quantizeDown p 2)

/-- Left-pad a digit list with leading zeros up to width `n`. -/
def padLeftZeros (s : List Char) (n : Nat) : List Char :=
  List.replicate (n - s.length) '0' ++ s

/-- Python `str(Decimal)` for the quantized decimals the formatter produces:
integer part, a point, and exactly `scale` fractional digits. -/
def renderDec (d : Dec) : String :=
  let sign := if d.mant < 0 then "-" else ""
  let n := d.mant.natAbs
  if d.scale = 0 then sign ++ String.mk (Nat.toDigits 10 n)
  else
    sign ++ String.mk (Nat.toDigits 10 (n / 10 ^ d.scale)) ++ "." ++
      String.mk (padLeftZeros (Nat.toDigits 10 (n % 10 ^ d.scale)) d.scale)

/-- One leg of an order (`OrderLeg` dataclass): action, symbol,
quantity, asset type; like the source, actions and asset types are the
plain strings of the `OrderAction` / asset-type constants. -/
structure OrderLeg where
  action : String
  symbol : String
  quantity : Int
  assetType : String := "EQUITY"
  deriving DecidableEq, Repr

/-- The non-recursive fields of `OrderBuilder` as `reset()` initializes
them (`console` is set in `__init__` and never reset). -/
structure Core where
  console : Bool := false
  legs : List OrderLeg := []
  order_type : Option String := none
  price : Option Dec := none
  stop_price : Option Dec := none
  time_in_force : String := "DAY"
  session : String := "NORMAL"
  require_confirm : Bool := false
  warnings : List String := []
  complex_order_strategy : String := "NONE"
  order_strategy : String := "SINGLE"
  stop_price_link_basis : Option String := none
  stop_price_link_type : Option String := none
  stop_price_offset : Option Dec := none
  deriving Repr

/-- Source `OrderBuilder`: its flat fields plus the recursive
`child_orders` list. -/
inductive OrderBuilder where
  | mk (core : Core) (child_orders : List OrderBuilder)

def OrderBuilder.core : OrderBuilder → Core
  | .mk c _ => c

def OrderBuilder.children : OrderBuilder → List OrderBuilder
  | .mk _ cs => cs

/-- Update the flat fields, keeping the children. -/
def OrderBuilder.mapCore (f : Core → Core) : OrderBuilder → OrderBuilder
  | .mk c cs => .mk (f c) cs

instance : Inhabited OrderBuilder := ⟨.mk {} []⟩

/-- Constructor `OrderBuilder(console)` followed by `reset()`. -/
def OrderBuilder.init (console : Bool) : OrderBuilder :=
  .mk { console := console } []

namespace OrderBuilder

/-- Source `_add_warning`: append the message to `self.warnings` (the console
print is a pure side channel). -/
def addWarning (b : OrderBuilder) (msg : String) : OrderBuilder :=
  b.mapCore fun c => { c with warnings := c.warnings ++ [msg] }

/-- Source `_add_leg`: append a leg with quantity 0. -/
def add_leg_raw (b : OrderBuilder) (action symbol assetType : String) : OrderBuilder :=
  b.mapCore fun c =>
    { c with legs := c.legs ++ [{ action := action, symbol := symbol,
                                  quantity := 0, assetType := assetType }] }

/-- Source `buy`: new BUY equity leg, symbol upper-cased. -/
def buy (b : OrderBuilder) (symbol : String) : OrderBuilder :=
  b.add_leg_raw "BUY" symbol.toUpper "EQUITY"

/-- Source `sell`: new SELL equity leg. -/
def sell (b : OrderBuilder) (symbol : String) : OrderBuilder :=
  b.add_leg_raw "SELL" symbol.toUpper "EQUITY"

/-- Source `sell_to_open`: new SELL_TO_OPEN option leg. -/
def sell_to_open (b : OrderBuilder) (symbol : String) : OrderBuilder :=
  b.add_leg_raw "SELL_TO_OPEN" symbol.toUpper "OPTION"

/-- Source `buy_to_open`: new BUY_TO_OPEN option leg. -/
def buy_to_open (b : OrderBuilder) (symbol : String) : OrderBuilder :=
  b.add_leg_raw "BUY_TO_OPEN" symbol.toUpper "OPTION"

/-- Assignment `self.legs[-1].quantity = q`. -/
def updateLast (q : Int) : List OrderLeg → List OrderLeg
  | [] => []
  | [l] => [{ l with quantity := q }]
  | l :: l2 :: ls => l :: updateLast q (l2 :: ls)

/-- Source `with_leg`: `_add_leg` then overwrite the quantity of the new leg (no
positivity check, unlike `_set_quantity`). -/
def with_leg (b : OrderBuilder) (action symbol : String) (quantity : Int)
    (assetType : String := "EQUITY") : OrderBuilder :=
  (b.add_leg_raw action symbol.toUpper assetType).mapCore fun c =>
    { c with legs := updateLast quantity c.legs }

/-- Source message `f"Large order: {q:,} shares"` (the thousands
separator of the Python format spec is not reproduced). -/
def largeSharesWarning (q : Int) : String :=
  "Large order: " ++ toString q ++ " shares"

/-- Source message `f"Large options order: {q} contracts"`. -/
def largeContractsWarning (q : Int) : String :=
  "Large options order: " ++ toString q ++ " contracts"

/-- Source `_set_quantity`: needs an existing leg and a positive quantity, sets
the quantity of the last leg, and appends an advisory warning for large
orders (>1000 shares / >10 contracts). -/
def set_quantity (b : OrderBuilder) (quantity : Int) (unit : String) :
    Except Err OrderBuilder :=
  if b.core.legs = [] then .error .noActiveLeg
  else if quantity ≤ 0 then .error .invalidQuantity
  else
    let b1 := b.mapCore fun c => { c with legs := updateLast quantity c.legs }
    if unit = "shares" ∧ 1000 < quantity then
      .ok (b1.addWarning (largeSharesWarning quantity))
    else if unit = "contracts" ∧ 10 < quantity then
      .ok (b1.addWarning (largeContractsWarning quantity))
    else .ok b1

/-- Source `shares(q)`. -/
def shares (b : OrderBuilder) (quantity : Int) : Except Err OrderBuilder :=
  b.set_quantity quantity "shares"

/-- Source `contracts(q)`. -/
def contracts (b : OrderBuilder) (quantity : Int) : Except Err OrderBuilder :=
  b.set_quantity quantity "contracts"

/-- Source message for `market()` on a large last leg. -/
def largeMarketWarning : String :=
  "Large market order - consider using limit order"

/-- Source `market()`: set MARKET, clear `price` (stop fields untouched), warn
when the most recent leg has more than 500 units. -/
def market (b : OrderBuilder) : OrderBuilder :=
  let b1 := b.mapCore fun c => { c with order_type := some "MARKET", price := none }
  match b1.core.legs.getLast? with
  | some l => if 500 < l.quantity then b1.addWarning largeMarketWarning else b1
  | none => b1

/-- Source `limit(price)`: set LIMIT and the formatted price.  (In the source
`self.order_type` is assigned before `_format_price` may raise; a claim
never observes the state after a failed call, so the error branch
discards it.) -/
def limit (b : OrderBuilder) (price : Dec) : Except Err OrderBuilder := do
  let p ← formatPrice price
  .ok (b.mapCore fun c => { c with order_type := some "LIMIT", price := some p })

/-- Source `stop(stop_price)`. -/
def stop (b : OrderBuilder) (stopPrice : Dec) : Except Err OrderBuilder := do
  let p ← formatPrice stopPrice
  .ok (b.mapCore fun c => { c with order_type := some "STOP", stop_price := some p })

/-- Source `stop_limit(stop_price, limit_price)`. -/
def stop_limit (b : OrderBuilder) (stopPrice limitPrice : Dec) :
    Except Err OrderBuilder := do
  let sp ← formatPrice stopPrice
  let lp ← formatPrice limitPrice
  .ok (b.mapCore fun c =>
    { c with order_type := some "STOP_LIMIT", stop_price := some sp, price := some lp })

/-- Source `trailing_stop(offset, offset_type, basis)`: stores the raw offset
(no formatting in the source). -/
def trailing_stop (b : OrderBuilder) (offset : Dec)
    (offsetType : String := "VALUE") (basis : String := "BID") : OrderBuilder :=
  b.mapCore fun c =>
    { c with order_type := some "TRAILING_STOP",
             stop_price_link_basis := some basis,
             stop_price_link_type := some offsetType,
             stop_price_offset := some offset }

/-- Source `day()`. -/
def day (b : OrderBuilder) : OrderBuilder :=
  b.mapCore fun c => { c with time_in_force := "DAY" }

/-- Source `gtc()`. -/
def gtc (b : OrderBuilder) : OrderBuilder :=
  b.mapCore fun c => { c with time_in_force := "GOOD_TILL_CANCEL" }

/-- Source `one_triggers_other(child)`: TRIGGER mode, append the child. -/
def one_triggers_other : OrderBuilder → OrderBuilder → OrderBuilder
  | .mk c cs, child => .mk { c with order_strategy := "TRIGGER" } (cs ++ [child])

/-- Source `one_cancels_other(child)`: OCO mode, append the child. -/
def one_cancels_other : OrderBuilder → OrderBuilder → OrderBuilder
  | .mk c cs, child => .mk { c with order_strategy := "OCO" } (cs ++ [child])

/-- Source `require_confirmation()`. -/
def require_confirmation (b : OrderBuilder) : OrderBuilder :=
  b.mapCore fun c => { c with require_confirm := true }

/-- The leg loop of `_validate_order`: first leg whose quantity is ≤ 0,
as the error it raises. -/
def legErr (legs : List OrderLeg) : Option Err :=
  (legs.find? (fun l => decide (l.quantity ≤ 0))).map
    (fun l => Err.badLegQuantity l.symbol l.quantity)

/-- The fatal checks of `_validate_order`, in source order, as the first
error raised (or `none`).  In the source, the conditional-orders check
runs after the advisory multi-leg warning below; the warning reads and
writes only `warnings`, which no check consults, so the first fatal
error is the same. -/
def validateErr (b : OrderBuilder) : Option Err :=
  if b.core.legs = [] then some .noLegs
  else match legErr b.core.legs with
  | some e => some e
  | none =>
    if b.core.order_type = some "LIMIT" ∧ b.core.price = none then
      some .limitNeedsPrice
    else if b.core.order_type = some "STOP" ∧ b.core.stop_price = none then
      some .stopNeedsStopPrice
    else if b.core.order_type = some "STOP_LIMIT" ∧
        (b.core.price = none ∨ b.core.stop_price = none) then
      some .stopLimitNeedsBoth
    else if (b.core.order_type = some "NET_DEBIT" ∨
        b.core.order_type = some "NET_CREDIT") ∧ b.core.price = none then
      some .netNeedsPrice
    else if (b.core.order_type = some "TRAILING_STOP" ∨
        b.core.order_type = some "TRAILING_STOP_LIMIT") ∧
        b.core.stop_price_offset = none then
      some .trailingNeedsOffset
    else if (b.core.order_strategy = "OCO" ∨ b.core.order_strategy = "TRIGGER") ∧
        b.children.isEmpty then
      some .conditionalNeedsChildren
    else none

/-- Source message for the advisory multi-leg options check. -/
def mlowWarning : String :=
  "Multi-leg options order should specify complex strategy type"

/-- Condition of the advisory check: more than one leg, at least one
OPTION leg, and no complex strategy tag. -/
def hasMlow (b : OrderBuilder) : Bool :=
  decide (1 < b.core.legs.length) &&
    !(b.core.legs.filter (fun l => l.assetType == "OPTION")).isEmpty &&
    (b.core.complex_order_strategy == "NONE")

/-- Source `_validate_order`: raise the first fatal error, else return the
builder with the advisory warning (if triggered) appended. -/
def validateOrder (b : OrderBuilder) : Except Err OrderBuilder :=
  match validateErr b with
  | some e => .error e
  | none => .ok (if hasMlow b then b.addWarning mlowWarning else b)

/-- Source `validate()`: true iff `_validate_order` does not raise. -/
def validate (b : OrderBuilder) : Bool :=
  (validateOrder b).toBool

end OrderBuilder

/-- The `instrument` sub-dict of a payload leg. -/
structure Instrument where
  symbol : String
  assetType : String
  deriving DecidableEq, Repr

/-- One entry of `orderLegCollection`. -/
structure PayloadLeg where
  instruction : String
  quantity : Int
  instrument : Instrument
  deriving DecidableEq, Repr

/-- The flat fields of the wire payload of `_build_schwab_order`.
Optional dict keys are `Option`s: every string the source guards with
truthiness (`if self.price:` etc.) is non-empty whenever set, so key
presence coincides with `isSome`; `price`/`stopPrice` carry the exact
decimal their string denotes. -/
structure PayloadCore where
  session : String
  duration : String
  orderType : String
  orderStrategyType : String
  complexOrderStrategyType : Option String
  price : Option Dec
  stopPrice : Option Dec
  stopPriceLinkBasis : Option String
  stopPriceLinkType : Option String
  stopPriceOffset : Option Dec
  orderLegCollection : List PayloadLeg
  deriving DecidableEq, Repr

/-- The payload tree: flat fields plus `childOrderStrategies` (the key
is emitted only for a non-empty `child_orders`, so the empty list and
the absent key coincide). -/
inductive Payload where
  | mk (core : PayloadCore) (childOrderStrategies : List Payload)

def Payload.core : Payload → PayloadCore
  | .mk c _ => c

def Payload.childOrderStrategies : Payload → List Payload
  | .mk _ cs => cs

/-- One leg dict of `orderLegCollection`. -/
def buildLeg (l : OrderLeg) : PayloadLeg :=
  { instruction := l.action, quantity := l.quantity,
    instrument := { symbol := l.symbol, assetType := l.assetType } }

/-- The flat part of `_build_schwab_order`. -/
def buildCore (c : Core) : PayloadCore :=
  { session := c.session
    duration := c.time_in_force
    orderType := c.order_type.getD "MARKET"
    orderStrategyType := c.order_strategy
    complexOrderStrategyType :=
      if c.complex_order_strategy ≠ "NONE" then some c.complex_order_strategy else none
    price := c.price
    stopPrice := c.stop_price
    stopPriceLinkBasis := c.stop_price_link_basis
    stopPriceLinkType := c.stop_price_link_type
    stopPriceOffset := c.stop_price_offset
    orderLegCollection := c.legs.map buildLeg }

mutual
/-- Source `_build_schwab_order`: flat fields plus the recursively built child
payloads — note: no validation of the children happens here. -/
def buildSchwab : OrderBuilder → Payload
  | .mk c cs => .mk (buildCore c) (buildSchwabList cs)

/-- List comprehension `[child._build_schwab_order() for child in self.child_orders]`. -/
def buildSchwabList : List OrderBuilder → List Payload
  | [] => []
  | b :: bs => buildSchwab b :: buildSchwabList bs
end

namespace OrderBuilder

/-- Source `_confirm_order` reduced to its return value: `True` when no console
is attached, else the interactive response. -/
def confirm_order (b : OrderBuilder) (response : Bool) : Bool :=
  if b.core.console then response else true

/-- Source `build()`: validate, then gate on confirmation when both the flag
and a console are present, then emit the payload.  Returns the payload
together with the builder as `build` leaves it (validation may have
appended a warning). -/
def build (b : OrderBuilder) (response : Bool) :
    Except Err (Payload × OrderBuilder) :=
  match validateOrder b with
  | .error e => .error e
  | .ok b1 =>
    if b1.core.require_confirm && b1.core.console then
      if confirm_order b1 response then .ok (buildSchwab b1, b1)
      else .error .orderCancelled
    else .ok (buildSchwab b1, b1)

end OrderBuilder

/-- Class `schwab_strategies.CoveredCall` (the class the claim cites): the
`StrategyBuilder` fields it uses plus its own `stock_quantity`. -/
structure CoveredCall where
  underlying : String
  console : Bool
  orders : List OrderBuilder
  stock_quantity : Int

/-- Constructor `CoveredCall(underlying, console)`. -/
def CoveredCall.init (underlying : String) (console : Bool) : CoveredCall :=
  { underlying := underlying.toUpper, console := console,
    orders := [], stock_quantity := 0 }

/-- Source `CoveredCall.buy_stock`: record the share count and append a
`buy(underlying).shares(n)` order. -/
def CoveredCall.buy_stock (cc : CoveredCall) (sharesQty : Int) :
    Except Err CoveredCall := do
  let o ← ((OrderBuilder.init cc.console).buy cc.underlying).shares sharesQty
  .ok { cc with stock_quantity := sharesQty, orders := cc.orders ++ [o] }

/-- Source `CoveredCall.sell_call`: coverage guard (`contracts * 100 >
stock_quantity` raises), else append a
`sell_to_open(symbol).contracts(n)` order. -/
def CoveredCall.sell_call (cc : CoveredCall) (callSymbol : String)
    (contractsQty : Int) : Except Err CoveredCall :=
  if cc.stock_quantity < contractsQty * 100 then
    .error (.insufficientCoverage contractsQty cc.stock_quantity)
  else do
    let o ← ((OrderBuilder.init cc.console).sell_to_open callSymbol).contracts contractsQty
    .ok { cc with orders := cc.orders ++ [o] }

/-- The Facade configuration field the safety gate reads
(`EZOrdersConfig.max_order_value`, default 10000.0). -/
structure EZConfig where
  max_order_value : ℚ := 10000

/-- Expression `float(order_json.get(PRICE, 0))`: the numeric value of the
price string of the payload, 0 when the key is absent. -/
def payloadPrice (p : Payload) : ℚ :=
  (p.core.price.map Dec.val).getD 0

/-- The summation loop of `_validate_order_value`: `quantity * price`
accumulated over legs whose instruction is BUY or BUY_TO_OPEN. -/
def buyNotional (legs : List PayloadLeg) (price : ℚ) : ℚ :=
  legs.foldl
    (fun acc l =>
      if l.instruction = "BUY" ∨ l.instruction = "BUY_TO_OPEN" then
        acc + (l.quantity : ℚ) * price
      else acc) 0

/-- Source `EZOrders._validate_order_value`: skip when the parsed price is 0
(market orders), else reject when the buy-side notional exceeds the
configured ceiling. -/
def validate_order_value (cfg : EZConfig) (p : Payload) : Except Err Unit :=
  if payloadPrice p = 0 then .ok ()
  else if cfg.max_order_value < buyNotional p.core.orderLegCollection (payloadPrice p) then
    .error .orderValueExceeded
  else .ok ()

/-- The live (non-dry-run) path of `EZOrders.submit_order`: build, run
the value gate, then hand the payload to the submission collaborator —
a returned `.ok` is exactly "the payload was delegated"; an `.error`
short-circuits before any delegation. -/
def submit_order (cfg : EZConfig) (b : OrderBuilder) (response : Bool) :
    Except Err Payload := do
  let pr ← OrderBuilder.build b response
  let _ ← validate_order_value cfg pr.1
  .ok pr.1

/-! ### Helper lemmas: nothing in validation or payload emission reads
the `warnings` list, so rewriting it is invisible everywhere else. -/

namespace OrderBuilder

/-- Overwrite the top-level `warnings` list. -/
def setWarnings (b : OrderBuilder) (w : List String) : OrderBuilder :=
  b.mapCore fun c => { c with warnings := w }

lemma addWarning_eq_setWarnings (b : OrderBuilder) (m : String) :
    b.addWarning m = b.setWarnings (b.core.warnings ++ [m]) := by
  cases b; rfl

lemma core_setWarnings (b : OrderBuilder) (w : List String) :
    (b.setWarnings w).core = { b.core with warnings := w } := by
  cases b; rfl

lemma children_setWarnings (b : OrderBuilder) (w : List String) :
    (b.setWarnings w).children = b.children := by
  cases b; rfl

lemma validateErr_setWarnings (b : OrderBuilder) (w : List String) :
    validateErr (b.setWarnings w) = validateErr b := by
  cases b; rfl

lemma hasMlow_setWarnings (b : OrderBuilder) (w : List String) :
    hasMlow (b.setWarnings w) = hasMlow b := by
  cases b; rfl

lemma buildSchwab_setWarnings (b : OrderBuilder) (w : List String) :
    buildSchwab (b.setWarnings w) = buildSchwab b := by
  cases b; rfl

/-- The state `_validate_order` returns on success. -/
def validated (b : OrderBuilder) : OrderBuilder :=
  if hasMlow b then b.addWarning mlowWarning else b

lemma validated_eq_setWarnings (b : OrderBuilder) :
    validated b = b.setWarnings ((validated b).core.warnings) := by
  unfold validated
  split
  · rw [addWarning_eq_setWarnings]; cases b; rfl
  · cases b; rfl

lemma core_validated_require_confirm (b : OrderBuilder) :
    (validated b).core.require_confirm = b.core.require_confirm := by
  rw [validated_eq_setWarnings b, core_setWarnings]

lemma core_validated_console (b : OrderBuilder) :
    (validated b).core.console = b.core.console := by
  rw [validated_eq_setWarnings b, core_setWarnings]

lemma buildSchwab_validated (b : OrderBuilder) :
    buildSchwab (validated b) = buildSchwab b := by
  rw [validated_eq_setWarnings b, buildSchwab_setWarnings]

lemma validateErr_validated (b : OrderBuilder) :
    validateErr (validated b) = validateErr b := by
  rw [validated_eq_setWarnings b, validateErr_setWarnings]

lemma hasMlow_validated (b : OrderBuilder) :
    hasMlow (validated b) = hasMlow b := by
  rw [validated_eq_setWarnings b, hasMlow_setWarnings]

lemma validateOrder_eq (b : OrderBuilder) :
    validateOrder b = match validateErr b with
      | some e => .error e
      | none => .ok (validated b) := rfl

/-- Lemma: `build`, rewritten over the pure pieces `validateErr`, `hasMlow`,
`buildSchwab`. -/
lemma build_unfold (b : OrderBuilder) (r : Bool) :
    build b r =
      match validateErr b with
      | some e => .error e
      | none =>
        if b.core.require_confirm && b.core.console && !r then
          .error .orderCancelled
        else .ok (buildSchwab b, validated b) := by
  unfold build
  rw [validateOrder_eq]
  cases hve : validateErr b with
  | some e => rfl
  | none =>
    simp only
    rw [core_validated_require_confirm, core_validated_console,
      buildSchwab_validated]
    unfold confirm_order
    rw [core_validated_console]
    cases hrc : b.core.require_confirm <;> cases hco : b.core.console <;>
      cases r <;> simp

lemma build_toBool (b : OrderBuilder) (r : Bool) :
    (build b r).toBool =
      ((validateErr b).isNone &&
        !(b.core.require_confirm && b.core.console && !r)) := by
  rw [build_unfold]
  cases hve : validateErr b with
  | some e => rfl
  | none =>
    simp only [Option.isNone_none, Bool.true_and]
    cases hgate : (b.core.require_confirm && b.core.console && !r) <;>
      simp [Except.toBool]

lemma build_eq_ok_iff (b : OrderBuilder) (r : Bool) (p : Payload)
    (b1 : OrderBuilder) :
    build b r = .ok (p, b1) ↔
      validateErr b = none ∧
      (b.core.require_confirm && b.core.console && !r) = false ∧
      p = buildSchwab b ∧ b1 = validated b := by
  rw [build_unfold]
  cases hve : validateErr b with
  | some e => simp
  | none =>
    cases hgate : (b.core.require_confirm && b.core.console && !r) <;>
      simp [eq_comm, and_comm]

end OrderBuilder

/-! ### Price formatter facts -/

lemma dec_pow_pos (s : Nat) : (0 : ℚ) < (10 : ℚ) ^ s := by positivity

lemma Dec.val_nonpos_iff (d : Dec) : d.val ≤ 0 ↔ d.mant ≤ 0 := by
  rw [Dec.val, div_le_iff₀ (dec_pow_pos d.scale), zero_mul, Int.cast_nonpos]

lemma Dec.val_pos_iff (d : Dec) : 0 < d.val ↔ 0 < d.mant := by
  rw [← not_le, Dec.val_nonpos_iff, not_le]

lemma Dec.one_le_val_iff (d : Dec) : 1 ≤ d.val ↔ (10 : ℤ) ^ d.scale ≤ d.mant := by
  rw [Dec.val, le_div_iff₀ (dec_pow_pos d.scale), one_mul]
  constructor
  · intro h
    exact_mod_cast h
  · intro h
    exact_mod_cast h

lemma Dec.val_lt_one_iff (d : Dec) : d.val < 1 ↔ d.mant < (10 : ℤ) ^ d.scale := by
  rw [← not_le, Dec.one_le_val_iff, not_le]

lemma quantizeDown_scale (d : Dec) (t : Nat) : (quantizeDown d t).scale = t := by
  unfold quantizeDown
  split <;> rfl

/-- Truncation toward zero never increases a non-negative value. -/
lemma quantizeDown_val_le (d : Dec) (t : Nat) (h : 0 ≤ d.mant) :
    (quantizeDown d t).val ≤ d.val := by
  unfold quantizeDown
  split
  case isTrue hst =>
    apply le_of_eq
    show ((d.mant * 10 ^ (t - d.scale) : ℤ) : ℚ) / (10 : ℚ) ^ t = _
    have hpow : (10 : ℚ) ^ t = (10 : ℚ) ^ (t - d.scale) * (10 : ℚ) ^ d.scale := by
      rw [← pow_add]
      congr 1
      omega
    rw [hpow, Dec.val]
    push_cast
    rw [div_eq_div_iff (by positivity) (by positivity)]
    ring
  case isFalse hst =>
    show ((Int.tdiv d.mant (10 ^ (d.scale - t)) : ℤ) : ℚ) / (10 : ℚ) ^ t ≤ _
    rw [Int.tdiv_eq_ediv h (by positivity), Dec.val,
      div_le_div_iff₀ (dec_pow_pos t) (dec_pow_pos d.scale)]
    have hpow : (10 : ℚ) ^ d.scale = (10 : ℚ) ^ (d.scale - t) * (10 : ℚ) ^ t := by
      rw [← pow_add]
      congr 1
      omega
    have hmul : (d.mant / 10 ^ (d.scale - t)) * 10 ^ (d.scale - t) ≤ d.mant :=
      Int.ediv_mul_le _ (by positivity)
    have hcast : ((d.mant / 10 ^ (d.scale - t)) * 10 ^ (d.scale - t) : ℤ) ≤ (d.mant : ℤ) := hmul
    have h2 : (((d.mant / 10 ^ (d.scale - t)) : ℤ) : ℚ) * (10 : ℚ) ^ (d.scale - t) ≤ (d.mant : ℚ) := by
      exact_mod_cast hcast
    calc (((d.mant / 10 ^ (d.scale - t)) : ℤ) : ℚ) * (10 : ℚ) ^ d.scale
        = ((( d.mant / 10 ^ (d.scale - t)) : ℤ) : ℚ) * (10 : ℚ) ^ (d.scale - t) * (10 : ℚ) ^ t := by
          rw [hpow, mul_assoc]
      _ ≤ (d.mant : ℚ) * (10 : ℚ) ^ t := by
          have := dec_pow_pos t
          nlinarith

/-- C3 components: formatter output in the two positive regimes. -/
lemma formatPrice_ge_one (d : Dec) (h : 1 ≤ d.val) :
    formatPrice d = .ok (quantizeDown d 2) := by
  have hm : (10 : ℤ) ^ d.scale ≤ d.mant := (Dec.one_le_val_iff d).mp h
  have hm0 : 0 < d.mant := lt_of_lt_of_le (by positivity) hm
  have hna : ¬ d.mant.natAbs < 10 ^ d.scale := by
    rw [not_lt]
    have : ((10 : ℕ) ^ d.scale : ℤ) ≤ (d.mant.natAbs : ℤ) := by
      rw [Int.natAbs_of_nonneg (le_of_lt hm0)]
      exact_mod_cast hm
    exact_mod_cast this
  unfold formatPrice
  rw [if_neg (by omega), if_neg hna]

lemma formatPrice_lt_one (d : Dec) (h0 : 0 < d.val) (h1 : d.val < 1) :
    formatPrice d = .ok (quantizeDown d 4) := by
  have hm0 : 0 < d.mant := (Dec.val_pos_iff d).mp h0
  have hm : d.mant < (10 : ℤ) ^ d.scale := (Dec.val_lt_one_iff d).mp h1
  have hna : d.mant.natAbs < 10 ^ d.scale := by
    have : (d.mant.natAbs : ℤ) < ((10 : ℕ) ^ d.scale : ℤ) := by
      rw [Int.natAbs_of_nonneg (le_of_lt hm0)]
      exact_mod_cast hm
    exact_mod_cast this
  unfold formatPrice
  rw [if_neg (by omega), if_pos hna]


/-! ### Claim theorems -/

/-- C3: for every raw price `p ≥ 1.0`, `_format_price` truncates toward
zero to 2 fractional digits, so the result never exceeds `p`; for
`0 < p < 1.0` it truncates to 4 fractional digits; and computed in exact
decimal arithmetic: `150.567 → "150.56"`, `0.12345 → "0.1234"`, and
`1.005 → "1.00"`. -/
theorem c3_format_price_truncates (d : Dec) :
    (1 ≤ d.val →
      ∃ out, formatPrice d = .ok out ∧ out.scale = 2 ∧ out.val ≤ d.val) ∧
    (0 < d.val → d.val < 1 →
      ∃ out, formatPrice d = .ok out ∧ out.scale = 4 ∧ out.val ≤ d.val) ∧
    (formatPrice ⟨150567, 3⟩ = .ok ⟨15056, 2⟩ ∧ renderDec ⟨15056, 2⟩ = "150.56") ∧
    (formatPrice ⟨12345, 5⟩ = .ok ⟨1234, 4⟩ ∧ renderDec ⟨1234, 4⟩ = "0.1234") ∧
    (formatPrice ⟨1005, 3⟩ = .ok ⟨100, 2⟩ ∧ renderDec ⟨100, 2⟩ = "1.00") := by
  refine ⟨?_, ?_, ⟨by rfl, by rfl⟩, ⟨by rfl, by rfl⟩, ⟨by rfl, by rfl⟩⟩
  · intro h
    have hm : 0 ≤ d.mant := by
      have := (Dec.one_le_val_iff d).mp h
      have : (0:ℤ) < 10 ^ d.scale := by positivity
      omega
    exact ⟨quantizeDown d 2, formatPrice_ge_one d h, quantizeDown_scale d 2,
      quantizeDown_val_le d 2 hm⟩
  · intro h0 h1
    have hm : 0 ≤ d.mant := le_of_lt ((Dec.val_pos_iff d).mp h0)
    exact ⟨quantizeDown d 4, formatPrice_lt_one d h0 h1, quantizeDown_scale d 4,
      quantizeDown_val_le d 4 hm⟩

/-- Witness for C3 at the concrete prices 150.50 and 0.12345. -/
theorem c3_format_price_truncates_witness :
    (∃ out, formatPrice ⟨15050, 2⟩ = .ok out ∧ out.scale = 2 ∧
      out.val ≤ Dec.val ⟨15050, 2⟩) ∧
    (∃ out, formatPrice ⟨12345, 5⟩ = .ok out ∧ out.scale = 4 ∧
      out.val ≤ Dec.val ⟨12345, 5⟩) :=
  ⟨(c3_format_price_truncates ⟨15050, 2⟩).1 ((Dec.one_le_val_iff _).mpr (by decide)),
   (c3_format_price_truncates ⟨12345, 5⟩).2.1 ((Dec.val_pos_iff _).mpr (by decide))
     ((Dec.val_lt_one_iff _).mpr (by decide))⟩

/-- C4: `_format_price` fails with InvalidPrice exactly when the input
is non-positive (in particular at 0 and -5), and returns a formatted
price for every positive input. -/
theorem c4_format_price_positive_iff (d : Dec) :
    (formatPrice d = .error .invalidPrice ↔ d.val ≤ 0) ∧
    (0 < d.val → ∃ out, formatPrice d = .ok out) ∧
    formatPrice ⟨0, 0⟩ = .error .invalidPrice ∧
    formatPrice ⟨-5, 0⟩ = .error .invalidPrice := by
  refine ⟨?_, ?_, by rfl, by rfl⟩
  · rw [Dec.val_nonpos_iff]
    unfold formatPrice
    constructor
    · intro h
      by_contra hm
      rw [if_neg hm] at h
      split at h <;> exact absurd h (by simp)
    · intro h
      rw [if_pos h]
  · intro h0
    have hm : ¬ d.mant ≤ 0 := by
      have := (Dec.val_pos_iff d).mp h0
      omega
    unfold formatPrice
    rw [if_neg hm]
    split
    · exact ⟨quantizeDown d 4, rfl⟩
    · exact ⟨quantizeDown d 2, rfl⟩

/-- Witness for C4 at the concrete price 3 (= Dec 3 0). -/
theorem c4_format_price_positive_iff_witness :
    ∃ out, formatPrice ⟨3, 0⟩ = .ok out :=
  (c4_format_price_positive_iff ⟨3, 0⟩).2.1 ((Dec.val_pos_iff _).mpr (by decide))

/-- First error of a builder whose children are replaced: validation
reads the children only through emptiness. -/
lemma validateErr_children_congr (c : Core) (cs cs2 : List OrderBuilder)
    (h : cs.isEmpty = cs2.isEmpty) :
    OrderBuilder.validateErr (.mk c cs) = OrderBuilder.validateErr (.mk c cs2) := by
  unfold OrderBuilder.validateErr
  simp only [OrderBuilder.core, OrderBuilder.children]
  simp only [h]

/-- An invalid child order: a single leg with quantity 0. -/
def c1Child : OrderBuilder :=
  (OrderBuilder.init false).with_leg "BUY" "XYZ" 0

/-- A parent whose own fields validate (LIMIT with a price, one leg of
quantity 10), with the invalid child attached by `one_cancels_other`. -/
def c1Parent : Except Err OrderBuilder := do
  let b ← ((OrderBuilder.init false).buy "AAPL").shares 10
  let b ← b.limit ⟨15050, 2⟩
  .ok ((b.day).one_cancels_other c1Child)

/-- C1 counterexample: the child fails its own validation, yet `build()`
on the parent succeeds — the parent does not recursively validate its
descendants. -/
theorem c1_parent_build_ignores_invalid_child_cex :
    OrderBuilder.validate c1Child = false ∧
    (c1Parent >>= fun b => OrderBuilder.build b true).toBool = true := by
  exact ⟨by rfl, by rfl⟩

/-- C1 amended: whether `build()` on a parent succeeds is independent of
which child order is attached — in particular of the validity of the child;
only the own fields of the parent (and children non-emptiness) are
validated, for both conditional modes. -/
theorem c1_build_success_independent_of_child_validity
    (b child child2 : OrderBuilder) (r : Bool) :
    ((OrderBuilder.build (b.one_cancels_other child) r).toBool =
      (OrderBuilder.build (b.one_cancels_other child2) r).toBool) ∧
    ((OrderBuilder.build (b.one_triggers_other child) r).toBool =
      (OrderBuilder.build (b.one_triggers_other child2) r).toBool) := by
  cases b with
  | mk c cs =>
    constructor
    · simp only [OrderBuilder.one_cancels_other]
      rw [OrderBuilder.build_toBool, OrderBuilder.build_toBool]
      simp only [OrderBuilder.core]
      rw [validateErr_children_congr _ (cs ++ [child]) (cs ++ [child2]) (by cases cs <;> rfl)]
    · simp only [OrderBuilder.one_triggers_other]
      rw [OrderBuilder.build_toBool, OrderBuilder.build_toBool]
      simp only [OrderBuilder.core]
      rw [validateErr_children_congr _ (cs ++ [child]) (cs ++ [child2]) (by cases cs <;> rfl)]

/-- C2: if `build()` succeeds, a second `build()` on the builder it left
behind (no intervening mutation) succeeds with a structurally equal
payload — validation can append an advisory warning, but neither
validation nor payload emission reads the warnings list. -/
theorem c2_build_idempotent (b b1 : OrderBuilder) (p : Payload) (r : Bool)
    (h : OrderBuilder.build b r = .ok (p, b1)) :
    ∃ b2, OrderBuilder.build b1 r = .ok (p, b2) := by
  rw [OrderBuilder.build_eq_ok_iff] at h
  obtain ⟨hve, hgate, hp, hb1⟩ := h
  refine ⟨OrderBuilder.validated b1, ?_⟩
  rw [OrderBuilder.build_eq_ok_iff]
  subst hb1 hp
  refine ⟨?_, ?_, ?_, rfl⟩
  · rw [OrderBuilder.validateErr_validated, hve]
  · rw [OrderBuilder.core_validated_require_confirm,
      OrderBuilder.core_validated_console]
    exact hgate
  · rw [OrderBuilder.buildSchwab_validated]

/-- A concrete builder on which `build()` succeeds:
`buy(AAPL).shares(100).limit(150.50).day()`. -/
def c2SampleE : Except Err OrderBuilder := do
  let b ← ((OrderBuilder.init false).buy "AAPL").shares 100
  let b ← b.limit ⟨15050, 2⟩
  .ok b.day

def c2Sample : OrderBuilder := c2SampleE.toOption.getD default

/-- Witness for C2 at the concrete sample builder. -/
theorem c2_build_idempotent_witness :
    ∃ b2, OrderBuilder.build c2Sample true = .ok (buildSchwab c2Sample, b2) :=
  c2_build_idempotent c2Sample c2Sample (buildSchwab c2Sample) true (by rfl)

namespace OrderBuilder

lemma build_setWarnings_toBool (b : OrderBuilder) (w : List String) (r : Bool) :
    (build (b.setWarnings w) r).toBool = (build b r).toBool := by
  rw [build_toBool, build_toBool, validateErr_setWarnings]
  cases b
  rfl

lemma build_setWarnings_fst (b : OrderBuilder) (w : List String) (r : Bool) :
    (build (b.setWarnings w) r).map Prod.fst = (build b r).map Prod.fst := by
  rw [build_unfold, build_unfold, validateErr_setWarnings, buildSchwab_setWarnings]
  have h3 : (b.setWarnings w).core.require_confirm = b.core.require_confirm := by
    cases b; rfl
  have h4 : (b.setWarnings w).core.console = b.core.console := by
    cases b; rfl
  rw [h3, h4]
  cases hve : validateErr b with
  | some e => rfl
  | none =>
    simp only
    cases hg : (b.core.require_confirm && b.core.console && !r) <;> rfl

end OrderBuilder

/-- C5: the three advisory-warning conditions (large share quantity,
large contract quantity, market order on a large leg, multi-leg option
order without a complex-strategy tag) append a warning string but never
fail; and neither `validate()` nor the payload of `build()` depends on
the warnings list at all. -/
theorem c5_warnings_never_block (b : OrderBuilder) (q q2 : Int)
    (w : List String) (r : Bool) :
    (b.core.legs ≠ [] → 1000 < q →
      b.shares q = .ok ((b.mapCore fun c =>
        { c with legs := OrderBuilder.updateLast q c.legs }).addWarning
          (OrderBuilder.largeSharesWarning q))) ∧
    (b.core.legs ≠ [] → 10 < q2 →
      b.contracts q2 = .ok ((b.mapCore fun c =>
        { c with legs := OrderBuilder.updateLast q2 c.legs }).addWarning
          (OrderBuilder.largeContractsWarning q2))) ∧
    (∀ l, b.core.legs.getLast? = some l → 500 < l.quantity →
      b.market = ((b.mapCore fun c =>
        { c with order_type := some "MARKET", price := none }).addWarning
          OrderBuilder.largeMarketWarning)) ∧
    (OrderBuilder.validateErr b = none → OrderBuilder.hasMlow b = true →
      OrderBuilder.validateOrder b = .ok (b.addWarning OrderBuilder.mlowWarning)) ∧
    (OrderBuilder.build (b.setWarnings w) r).toBool = (OrderBuilder.build b r).toBool ∧
    (OrderBuilder.build (b.setWarnings w) r).map Prod.fst =
      (OrderBuilder.build b r).map Prod.fst := by
  refine ⟨?_, ?_, ?_, ?_, OrderBuilder.build_setWarnings_toBool b w r,
    OrderBuilder.build_setWarnings_fst b w r⟩
  · intro hleg hq
    unfold OrderBuilder.shares OrderBuilder.set_quantity
    rw [if_neg hleg, if_neg (by omega), if_pos ⟨rfl, hq⟩]
  · intro hleg hq2
    unfold OrderBuilder.contracts OrderBuilder.set_quantity
    rw [if_neg hleg, if_neg (by omega), if_neg (by simp), if_pos ⟨rfl, hq2⟩]
  · intro l hl hql
    cases b with
    | mk c cs =>
      simp only [OrderBuilder.market, OrderBuilder.mapCore, OrderBuilder.core] at hl ⊢
      rw [hl]
      simp only [hql, if_true]
  · intro hve hmlow
    rw [OrderBuilder.validateOrder_eq, hve]
    simp only [OrderBuilder.validated, hmlow, if_true]

/-- Concrete builders exercising each advisory-warning condition. -/
def c5b1 : OrderBuilder := (OrderBuilder.init false).buy "AAPL"

def c5b3 : OrderBuilder := (OrderBuilder.init false).with_leg "BUY" "AAPL" 600

def c5b4 : OrderBuilder :=
  ((OrderBuilder.init false).with_leg "BUY_TO_OPEN" "OPT1" 1 "OPTION").with_leg
    "SELL_TO_OPEN" "OPT2" 1 "OPTION"

/-- Witness for C5: 1500 shares, 20 contracts, market order on a
600-share leg, and an untagged two-option-leg order. -/
theorem c5_warnings_never_block_witness :
    (c5b1.shares 1500 = .ok ((c5b1.mapCore fun c =>
      { c with legs := OrderBuilder.updateLast 1500 c.legs }).addWarning
        (OrderBuilder.largeSharesWarning 1500))) ∧
    (c5b1.contracts 20 = .ok ((c5b1.mapCore fun c =>
      { c with legs := OrderBuilder.updateLast 20 c.legs }).addWarning
        (OrderBuilder.largeContractsWarning 20))) ∧
    (c5b3.market = ((c5b3.mapCore fun c =>
      { c with order_type := some "MARKET", price := none }).addWarning
        OrderBuilder.largeMarketWarning)) ∧
    (OrderBuilder.validateOrder c5b4 = .ok (c5b4.addWarning OrderBuilder.mlowWarning)) :=
  ⟨(c5_warnings_never_block c5b1 1500 20 [] true).1 (by decide) (by decide),
   (c5_warnings_never_block c5b1 1500 20 [] true).2.1 (by decide) (by decide),
   (c5_warnings_never_block c5b3 0 0 [] true).2.2.1
     ⟨"BUY", String.toUpper "AAPL", 600, "EQUITY"⟩ (by rfl) (by decide),
   (c5_warnings_never_block c5b4 0 0 [] true).2.2.2.1 (by rfl) (by rfl)⟩

lemma add_leg_raw_legs (b : OrderBuilder) (a s t : String) :
    (b.add_leg_raw a s t).core.legs =
      b.core.legs ++ [{ action := a, symbol := s, quantity := 0, assetType := t }] := by
  cases b; rfl

/-- Source `_set_quantity` succeeds exactly on an existing leg and a positive
quantity (possibly appending an advisory warning). -/
lemma set_quantity_ok (b : OrderBuilder) (q : Int) (unit : String)
    (hleg : b.core.legs ≠ []) (hq : 0 < q) :
    ∃ o, b.set_quantity q unit = .ok o := by
  unfold OrderBuilder.set_quantity
  rw [if_neg hleg, if_neg (by omega)]
  split
  · exact ⟨_, rfl⟩
  · split
    · exact ⟨_, rfl⟩
    · exact ⟨_, rfl⟩

/-- The run of the C6 counterexample: 100 shares bought, then
`sell_call` with 0 contracts. -/
def c6Run : Except Err CoveredCall := do
  let cc ← (CoveredCall.init "AAPL" false).buy_stock 100
  cc.sell_call "AAPL240315C00160000" 0

/-- C6 counterexample: 0 contracts need 0 ≤ 100 shares of coverage, so
by the claim `sell_call` should succeed — but it fails (with the
quantity error from `contracts`, not the coverage error). -/
theorem c6_sell_call_zero_contracts_cex :
    (0 * 100 ≤ (100 : ℤ)) ∧ c6Run = .error .invalidQuantity :=
  ⟨by decide, by rfl⟩

/-- C6 amended: after `buy_stock(s)` succeeds, `sell_call(sym, c)` fails
with InsufficientCoverage whenever `c * 100 > s`, and succeeds
(appending the call order) whenever `c` is positive and `c * 100 ≤ s`
(for `c ≤ 0` the coverage guard passes but the `contracts` setter
rejects the non-positive quantity). -/
theorem c6_covered_call_coverage_guard (cc cc2 : CoveredCall) (sym : String)
    (s c : Int) (h : cc.buy_stock s = .ok cc2) :
    cc2.stock_quantity = s ∧
    (cc2.stock_quantity < c * 100 →
      cc2.sell_call sym c = .error (.insufficientCoverage c cc2.stock_quantity)) ∧
    (0 < c → c * 100 ≤ cc2.stock_quantity →
      ∃ o, cc2.sell_call sym c = .ok { cc2 with orders := cc2.orders ++ [o] }) := by
  unfold CoveredCall.buy_stock at h
  cases hs : ((OrderBuilder.init cc.console).buy cc.underlying).shares s with
  | error e => rw [hs] at h; exact Except.noConfusion h
  | ok o =>
    rw [hs] at h
    replace h := Except.ok.inj h
    subst h
    refine ⟨rfl, ?_, ?_⟩
    · intro hlt
      unfold CoveredCall.sell_call
      rw [if_pos hlt]
    · intro hc hle
      have hleg : ((OrderBuilder.init cc.console).sell_to_open sym).core.legs ≠ [] := by
        unfold OrderBuilder.sell_to_open
        rw [add_leg_raw_legs]
        simp
      obtain ⟨o2, ho2⟩ := set_quantity_ok ((OrderBuilder.init cc.console).sell_to_open sym)
        c "contracts" hleg hc
      refine ⟨o2, ?_⟩
      unfold CoveredCall.sell_call
      rw [if_neg (not_lt.mpr hle)]
      show (((OrderBuilder.init cc.console).sell_to_open sym).contracts c).bind _ = _
      rw [show ((OrderBuilder.init cc.console).sell_to_open sym).contracts c = .ok o2 from ho2]
      rfl

/-- Concrete state after `CoveredCall(AAPL).buy_stock(100)`. -/
def c6cc2 : CoveredCall :=
  ((CoveredCall.init "AAPL" false).buy_stock 100).toOption.getD
    (CoveredCall.init "" false)

/-- Witness for C6 at `buy_stock(100)` then 2 contracts (fails the
guard) and 1 contract (succeeds). -/
theorem c6_covered_call_coverage_guard_witness :
    (c6cc2.sell_call "AAPL240315C00160000" 2 =
      .error (.insufficientCoverage 2 c6cc2.stock_quantity)) ∧
    (∃ o, c6cc2.sell_call "AAPL240315C00160000" 1 =
      .ok { c6cc2 with orders := c6cc2.orders ++ [o] }) :=
  ⟨(c6_covered_call_coverage_guard (CoveredCall.init "AAPL" false) c6cc2
      "AAPL240315C00160000" 100 2 (by rfl)).2.1 (by decide),
   (c6_covered_call_coverage_guard (CoveredCall.init "AAPL" false) c6cc2
      "AAPL240315C00160000" 100 1 (by rfl)).2.2 (by decide) (by decide)⟩

/-- A zero parsed price contributes nothing to the notional. -/
lemma buyNotional_zero (legs : List PayloadLeg) : buyNotional legs 0 = 0 := by
  unfold buyNotional
  suffices h : ∀ acc : ℚ, legs.foldl
      (fun acc l =>
        if l.instruction = "BUY" ∨ l.instruction = "BUY_TO_OPEN" then
          acc + (l.quantity : ℚ) * 0
        else acc) acc = acc from h 0
  induction legs with
  | nil => intro acc; rfl
  | cons l ls ih =>
    intro acc
    simp only [List.foldl_cons]
    split
    · rw [mul_zero, add_zero]; exact ih acc
    · exact ih acc

/-- C7: with a built payload carrying a price, the Facade value gate
rejects (no delegation to the submission collaborator) exactly when the
buy-side notional exceeds the configured ceiling, and otherwise lets the
payload through unchanged. -/
theorem c7_order_value_gate (cfg : EZConfig) (b : OrderBuilder) (r : Bool)
    (p : Payload) (b1 : OrderBuilder) (d : Dec)
    (hmax : 0 ≤ cfg.max_order_value)
    (hb : OrderBuilder.build b r = .ok (p, b1))
    (_hd : p.core.price = some d) :
    (cfg.max_order_value < buyNotional p.core.orderLegCollection (payloadPrice p) →
      submit_order cfg b r = .error .orderValueExceeded) ∧
    (buyNotional p.core.orderLegCollection (payloadPrice p) ≤ cfg.max_order_value →
      submit_order cfg b r = .ok p) := by
  have hsub : submit_order cfg b r =
      (validate_order_value cfg p).bind (fun _ => Except.ok p) := by
    unfold submit_order
    rw [hb]
    rfl
  constructor
  · intro hgt
    have hpne : payloadPrice p ≠ 0 := by
      intro h0
      rw [h0, buyNotional_zero] at hgt
      exact absurd hgt (not_lt.mpr hmax)
    rw [hsub]
    unfold validate_order_value
    rw [if_neg hpne, if_pos hgt]
    rfl
  · intro hle
    rw [hsub]
    unfold validate_order_value
    by_cases hp0 : payloadPrice p = 0
    · rw [if_pos hp0]; rfl
    · rw [if_neg hp0, if_neg (not_lt.mpr hle)]; rfl

/-- Concrete builder for the C7 witness:
`buy(MSFT).shares(100).limit(150.50)` — notional 15050. -/
def c7bE : Except Err OrderBuilder := do
  let b ← ((OrderBuilder.init false).buy "MSFT").shares 100
  b.limit ⟨15050, 2⟩

def c7b : OrderBuilder := c7bE.toOption.getD default

def c7p : Payload := buildSchwab c7b

/-- Witness for C7: the 15050 notional is rejected under a 10000
ceiling and delegated under a 20000 ceiling. -/
theorem c7_order_value_gate_witness :
    submit_order ⟨10000⟩ c7b true = .error .orderValueExceeded ∧
    submit_order ⟨20000⟩ c7b true = .ok c7p :=
  ⟨(c7_order_value_gate ⟨10000⟩ c7b true c7p c7b ⟨15050, 2⟩ (by decide)
      (by rfl) (by rfl)).1 (by
        have h2 : c7p.core.orderLegCollection =
            [{ instruction := "BUY", quantity := 100,
               instrument := { symbol := String.toUpper "MSFT",
                               assetType := "EQUITY" } }] := rfl
        have h1 : payloadPrice c7p = Dec.val ⟨15050, 2⟩ := rfl
        rw [h2, h1]
        show (10000 : ℚ) < _
        simp [buyNotional, Dec.val]
        norm_num),
   (c7_order_value_gate ⟨20000⟩ c7b true c7p c7b ⟨15050, 2⟩ (by decide)
      (by rfl) (by rfl)).2 (by
        have h2 : c7p.core.orderLegCollection =
            [{ instruction := "BUY", quantity := 100,
               instrument := { symbol := String.toUpper "MSFT",
                               assetType := "EQUITY" } }] := rfl
        have h1 : payloadPrice c7p = Dec.val ⟨15050, 2⟩ := rfl
        rw [h2, h1]
        show _ ≤ (20000 : ℚ)
        simp [buyNotional, Dec.val]
        norm_num)⟩

lemma updateLast_append (q : Int) (ys : List OrderLeg) (x : OrderLeg) :
    OrderBuilder.updateLast q (ys ++ [x]) = ys ++ [{ x with quantity := q }] := by
  induction ys with
  | nil => rfl
  | cons y ys ih =>
    cases ys with
    | nil => rfl
    | cons y2 ys2 =>
      show y :: OrderBuilder.updateLast q ((y2 :: ys2) ++ [x]) = _
      rw [ih]
      rfl

lemma with_leg_legs (b : OrderBuilder) (act sym at2 : String) (q : Int) :
    (b.with_leg act sym q at2).core.legs =
      b.core.legs ++ [{ action := act, symbol := sym.toUpper,
                        quantity := q, assetType := at2 }] := by
  cases b with
  | mk c cs =>
    show OrderBuilder.updateLast q (c.legs ++ [_]) = _
    rw [updateLast_append]
    rfl

lemma validateErr_some_of_badLeg (b : OrderBuilder) (e : Err)
    (h : OrderBuilder.legErr b.core.legs = some e) :
    OrderBuilder.validateErr b = some e := by
  unfold OrderBuilder.validateErr
  have hne : ¬ b.core.legs = [] := by
    intro h0
    rw [h0] at h
    exact Option.noConfusion h
  rw [if_neg hne, h]

/-- C8: `with_leg` performs no quantity check — it always succeeds and
appends a leg with the given (possibly non-positive) quantity, unlike
`shares`/`contracts` which fail immediately; the violation only
surfaces later, when `validate()` is false and `build()` fails. -/
theorem c8_with_leg_defers_quantity_check (b : OrderBuilder)
    (act sym at2 : String) (q : Int) (r : Bool) (hq : q ≤ 0) :
    (b.with_leg act sym q at2).core.legs =
      b.core.legs ++ [{ action := act, symbol := sym.toUpper,
                        quantity := q, assetType := at2 }] ∧
    (b.shares q).toBool = false ∧
    (b.contracts q).toBool = false ∧
    OrderBuilder.validate (b.with_leg act sym q at2) = false ∧
    (OrderBuilder.build (b.with_leg act sym q at2) r).toBool = false := by
  have h1 := with_leg_legs b act sym at2 q
  have hfail : ∀ unit, (b.set_quantity q unit).toBool = false := by
    intro unit
    unfold OrderBuilder.set_quantity
    by_cases hleg : b.core.legs = []
    · rw [if_pos hleg]; rfl
    · rw [if_neg hleg, if_pos hq]; rfl
  have hle : OrderBuilder.legErr ((b.with_leg act sym q at2).core.legs) ≠ none := by
    rw [h1]
    unfold OrderBuilder.legErr
    rw [Ne, Option.map_eq_none']
    intro hnone
    have hall := List.find?_eq_none.mp hnone
      { action := act, symbol := sym.toUpper, quantity := q, assetType := at2 }
      (by simp)
    simp at hall
    omega
  obtain ⟨e, he⟩ := Option.ne_none_iff_exists'.mp hle
  have hve := validateErr_some_of_badLeg _ e he
  refine ⟨h1, hfail "shares", hfail "contracts", ?_, ?_⟩
  · unfold OrderBuilder.validate OrderBuilder.validateOrder
    rw [hve]
    rfl
  · rw [OrderBuilder.build_toBool, hve]
    rfl

/-- Witness for C8 at a fresh builder, `with_leg(BUY, XYZ, 0)`. -/
theorem c8_with_leg_defers_quantity_check_witness :
    ((OrderBuilder.init false).with_leg "BUY" "XYZ" 0 "EQUITY").core.legs =
      (OrderBuilder.init false).core.legs ++
        [{ action := "BUY", symbol := String.toUpper "XYZ",
           quantity := 0, assetType := "EQUITY" }] ∧
    ((OrderBuilder.init false).shares 0).toBool = false ∧
    ((OrderBuilder.init false).contracts 0).toBool = false ∧
    OrderBuilder.validate ((OrderBuilder.init false).with_leg "BUY" "XYZ" 0 "EQUITY") = false ∧
    (OrderBuilder.build ((OrderBuilder.init false).with_leg "BUY" "XYZ" 0 "EQUITY") true).toBool
      = false :=
  c8_with_leg_defers_quantity_check (OrderBuilder.init false) "BUY" "XYZ" "EQUITY"
    0 true (by decide)

lemma buildSchwab_core (b : OrderBuilder) : (buildSchwab b).core = buildCore b.core := by
  cases b; rfl

lemma market_core_fields (b : OrderBuilder) :
    (b.market).core.order_type = some "MARKET" ∧
    (b.market).core.price = none ∧
    (b.market).core.stop_price = b.core.stop_price ∧
    (b.market).core.stop_price_link_basis = b.core.stop_price_link_basis ∧
    (b.market).core.stop_price_link_type = b.core.stop_price_link_type ∧
    (b.market).core.stop_price_offset = b.core.stop_price_offset := by
  cases b with
  | mk c cs =>
    unfold OrderBuilder.market
    cases hl : c.legs.getLast? with
    | none =>
      simp only [OrderBuilder.mapCore, OrderBuilder.core, hl]
      exact ⟨trivial, trivial, trivial, trivial, trivial, trivial⟩
    | some l =>
      simp only [OrderBuilder.mapCore, OrderBuilder.core, hl]
      by_cases hq : 500 < l.quantity
      · rw [if_pos hq]
        exact ⟨rfl, rfl, rfl, rfl, rfl, rfl⟩
      · rw [if_neg hq]
        exact ⟨rfl, rfl, rfl, rfl, rfl, rfl⟩

/-- C9: `market()` sets MARKET and clears only `price`; the stop price
and all trailing-stop fields survive, and after a prior `stop(s)` the
built payload is a MARKET order that still carries the stale
`stopPrice`. -/
theorem c9_market_preserves_stop_fields (b b2 : OrderBuilder) (d : Dec)
    (h : b.stop d = .ok b2) :
    (b2.market).core.order_type = some "MARKET" ∧
    (b2.market).core.price = none ∧
    (b2.market).core.stop_price = b2.core.stop_price ∧
    (b2.market).core.stop_price_link_basis = b2.core.stop_price_link_basis ∧
    (b2.market).core.stop_price_link_type = b2.core.stop_price_link_type ∧
    (b2.market).core.stop_price_offset = b2.core.stop_price_offset ∧
    b2.core.stop_price.isSome = true ∧
    (buildSchwab (b2.market)).core.orderType = "MARKET" ∧
    (buildSchwab (b2.market)).core.stopPrice = b2.core.stop_price := by
  obtain ⟨m1, m2, m3, m4, m5, m6⟩ := market_core_fields b2
  have hsp : b2.core.stop_price.isSome = true := by
    unfold OrderBuilder.stop at h
    cases hf : formatPrice d with
    | error e => rw [hf] at h; exact Except.noConfusion h
    | ok p =>
      rw [hf] at h
      replace h := Except.ok.inj h
      subst h
      cases b; rfl
  refine ⟨m1, m2, m3, m4, m5, m6, hsp, ?_, ?_⟩
  · rw [buildSchwab_core]
    show ((b2.market).core.order_type).getD "MARKET" = "MARKET"
    rw [m1]
    rfl
  · rw [buildSchwab_core]
    show (b2.market).core.stop_price = b2.core.stop_price
    exact m3

/-- Concrete builder after `stop(42.00)` for the C9 witness. -/
def c9b2 : OrderBuilder :=
  ((OrderBuilder.init false).stop ⟨4200, 2⟩).toOption.getD default

/-- Witness for C9 at a builder that called `stop(42.00)`. -/
theorem c9_market_preserves_stop_fields_witness :
    (c9b2.market).core.order_type = some "MARKET" ∧
    (c9b2.market).core.price = none ∧
    (c9b2.market).core.stop_price = c9b2.core.stop_price ∧
    (c9b2.market).core.stop_price_link_basis = c9b2.core.stop_price_link_basis ∧
    (c9b2.market).core.stop_price_link_type = c9b2.core.stop_price_link_type ∧
    (c9b2.market).core.stop_price_offset = c9b2.core.stop_price_offset ∧
    c9b2.core.stop_price.isSome = true ∧
    (buildSchwab (c9b2.market)).core.orderType = "MARKET" ∧
    (buildSchwab (c9b2.market)).core.stopPrice = c9b2.core.stop_price :=
  c9_market_preserves_stop_fields (OrderBuilder.init false) c9b2 ⟨4200, 2⟩ (by rfl)

lemma legErr_ne_cancelled (legs : List OrderLeg) :
    OrderBuilder.legErr legs ≠ some .orderCancelled := by
  unfold OrderBuilder.legErr
  intro h
  rw [Option.map_eq_some'] at h
  obtain ⟨a, _, ha⟩ := h
  exact Err.noConfusion ha

/-- Source `_validate_order` can raise many errors, but never the user-
cancellation one. -/
lemma validateErr_ne_orderCancelled (b : OrderBuilder) :
    OrderBuilder.validateErr b ≠ some .orderCancelled := by
  have hle := legErr_ne_cancelled b.core.legs
  unfold OrderBuilder.validateErr
  (repeat' split) <;> simp_all

/-- C10: with `require_confirmation()` set but no console attached,
`build()` never consults the confirmation response, never fails with the
order-cancelled error, and returns exactly the payload the builder
without the flag would return. -/
theorem c10_confirmation_gate_requires_console (b : OrderBuilder)
    (r r2 : Bool) (h : b.core.console = false) :
    OrderBuilder.build (b.require_confirmation) r =
      OrderBuilder.build (b.require_confirmation) r2 ∧
    OrderBuilder.build (b.require_confirmation) r ≠ .error .orderCancelled ∧
    (OrderBuilder.build (b.require_confirmation) r).map Prod.fst =
      (OrderBuilder.build b r).map Prod.fst := by
  have h1 : OrderBuilder.validateErr (b.require_confirmation) =
      OrderBuilder.validateErr b := by cases b; rfl
  have h2 : buildSchwab (b.require_confirmation) = buildSchwab b := by
    cases b; rfl
  have h3 : (b.require_confirmation).core.console = false := by
    cases b; exact h
  have hg : ∀ r3 : Bool, ((b.require_confirmation).core.require_confirm &&
      (b.require_confirmation).core.console && !r3) = false := by
    intro r3
    rw [h3]
    simp
  have hgb : ∀ r3 : Bool, (b.core.require_confirm && b.core.console && !r3) = false := by
    intro r3
    rw [h]
    simp
  refine ⟨?_, ?_, ?_⟩
  · rw [OrderBuilder.build_unfold, OrderBuilder.build_unfold, hg r, hg r2]
  · rw [OrderBuilder.build_unfold, hg r]
    cases hve : OrderBuilder.validateErr (b.require_confirmation) with
    | some e =>
      simp only
      intro hcon
      injection hcon with he
      rw [h1] at hve
      exact validateErr_ne_orderCancelled b (by rw [hve, he])
    | none => simp
  · rw [OrderBuilder.build_unfold, OrderBuilder.build_unfold, hg r, hgb r, h1, h2]
    cases hve : OrderBuilder.validateErr b with
    | some e => simp only [hve]
    | none =>
      simp only [hve]
      rfl

/-- Witness for C10: a consoleless builder with one 5-share AAPL leg. -/
def c10b : OrderBuilder :=
  (((OrderBuilder.init false).buy "AAPL").shares 5).toOption.getD default

/-- Witness for C10 at the concrete consoleless builder, with both
possible confirmation responses. -/
theorem c10_confirmation_gate_requires_console_witness :
    OrderBuilder.build (c10b.require_confirmation) true =
      OrderBuilder.build (c10b.require_confirmation) false ∧
    OrderBuilder.build (c10b.require_confirmation) true ≠ .error .orderCancelled ∧
    (OrderBuilder.build (c10b.require_confirmation) true).map Prod.fst =
      (OrderBuilder.build c10b true).map Prod.fst :=
  c10_confirmation_gate_requires_console c10b true false (by rfl)
